import Mathlib

/-!
Verification of the UIAnalyzerMCP heuristic semantic-analysis pipeline.

The repository's pure analysis functions (`analyzer.py`, `framework_detector.py`)
are shallowly embedded here.  Strings are Lean `String`s; Python's `str.lower`
and the `in`-substring test are modelled on the underlying character lists.
Numbers that are floats in the browser (pixel coordinates) are modelled as `Int`,
which is adequate because the code only compares them.
-/

namespace UIAnalyzer

/-- Model of Python `str.lower` / JS `toLowerCase` (ASCII case folding,
which is all the analyzer's inputs use). -/
def lowerStr (s : String) : String := ⟨s.data.map Char.toLower⟩

/-- `leadMatch pat s` is true when `pat` is an initial segment of `s`. -/
def leadMatch : List Char → List Char → Bool
  | [], _ => true
  | _ :: _, [] => false
  | a :: pa, b :: sb => a == b && leadMatch pa sb

/-- `hasSub pat s` models Python's `pat in s` / JS `includes`:
`pat` occurs contiguously somewhere in `s`. -/
def hasSub (pat : List Char) : List Char → Bool
  | [] => leadMatch pat []
  | c :: t => leadMatch pat (c :: t) || hasSub pat t

/-- Substring test on strings (Python `pat in s`). -/
def hasSubS (pat s : String) : Bool := hasSub pat.data s.data

/-- `strStarts s pre` models Python `s.startswith(pre)`. -/
def strStarts (s pre : String) : Bool := leadMatch pre.data s.data

/-- Whitespace test used by `trimStr` (models JS/Python strip of blanks). -/
def isWS (c : Char) : Bool := c == ' ' || c == '\t' || c == '\n' || c == '\r'

/-- Drop leading whitespace from a character list. -/
def dropLeadWS : List Char → List Char
  | [] => []
  | c :: t => if isWS c then dropLeadWS t else c :: t

/-- Model of JS `String.prototype.trim` / Python `str.strip`. -/
def trimStr (s : String) : String :=
  ⟨(dropLeadWS (dropLeadWS s.data).reverse).reverse⟩

/-- First space-separated token: JS `s.split(' ')[0]`. -/
def headTok (s : String) : String := ⟨go s.data⟩
where
  go : List Char → List Char
    | [] => []
    | c :: t => if c == ' ' then [] else c :: go t

/- ===================== Element Classifier (analyzer.py) ===================== -/

/-- The per-element raw facts consumed by `detect_element_type`
(`element_data` dict in `analyzer.py`: only the keys the classifier reads). -/
structure ElementData where
  tag_name : String
  aria_role : Option String
  classes : List String
  element_id : Option String
deriving DecidableEq

/-- `tag_type_map` of `detect_element_type` (declaration order preserved). -/
def tag_type_map : List (String × String) :=
  [("nav", "navbar"), ("header", "header"), ("footer", "footer"),
   ("button", "button"), ("form", "form"), ("input", "input"),
   ("textarea", "input"), ("select", "input"), ("img", "image"),
   ("picture", "image"), ("svg", "image"), ("aside", "sidebar"),
   ("section", "section"), ("main", "container"), ("h1", "heading"),
   ("h2", "heading"), ("h3", "heading"), ("h4", "heading"),
   ("h5", "heading"), ("h6", "heading"), ("a", "link")]

/-- `role_type_map` of `detect_element_type`. -/
def role_type_map : List (String × String) :=
  [("navigation", "navbar"), ("banner", "header"), ("contentinfo", "footer"),
   ("button", "button"), ("link", "link"), ("form", "form"),
   ("textbox", "input"), ("dialog", "modal"), ("menu", "dropdown"),
   ("heading", "heading"), ("img", "image"), ("complementary", "sidebar"),
   ("main", "container"), ("region", "section")]

/-- `class_keywords` of `detect_element_type` (declaration order is
significant: earlier keywords shadow later ones). -/
def class_keywords : List (String × String) :=
  [("hero", "hero"), ("navbar", "navbar"), ("nav", "navbar"),
   ("navigation", "navbar"), ("header", "header"), ("footer", "footer"),
   ("card", "card"), ("btn", "button"), ("button", "button"),
   ("sidebar", "sidebar"), ("modal", "modal"), ("dialog", "modal"),
   ("dropdown", "dropdown"), ("menu", "dropdown"), ("form", "form"),
   ("container", "container"), ("wrapper", "container")]

/-- Stage 1 of the classifier: exact lowercased-tag lookup. -/
def tagStage (e : ElementData) : Option String :=
  tag_type_map.lookup (lowerStr e.tag_name)

/-- The lowercased role string: `element_data.get("aria_role", "").lower()
if element_data.get("aria_role") else ""`. -/
def roleOf (e : ElementData) : String :=
  match e.aria_role with
  | some r => lowerStr r
  | none => ""

/-- Stage 2 of the classifier: exact ARIA-role lookup. -/
def roleStage (e : ElementData) : Option String :=
  role_type_map.lookup (roleOf e)

/-- Stage 3: for each class (in DOM order), for each keyword (in table order),
substring match; first hit wins. -/
def classStage (e : ElementData) : Option String :=
  (e.classes.map lowerStr).findSome? fun cls =>
    class_keywords.findSome? fun kt =>
      if hasSubS kt.1 cls then some kt.2 else none

/-- Stage 4: substring match of the lowercased element id against the same
keyword table. `(element_data.get("element_id") or "").lower()`. -/
def idStage (e : ElementData) : Option String :=
  class_keywords.findSome? fun kt =>
    if hasSubS kt.1 (lowerStr (e.element_id.getD "")) then some kt.2 else none

/-- `detect_element_type` of `analyzer.py`: tag, then role, then class
keywords, then id keywords, then `"other"`. -/
def detect_element_type (e : ElementData) : String :=
  match tagStage e with
  | some t => t
  | none =>
    match roleStage e with
    | some t => t
    | none =>
      match classStage e with
      | some t => t
      | none =>
        match idStage e with
        | some t => t
        | none => "other"

/-- The closed ElementType enumeration of the spec's data model. -/
def elementTypeEnum : List String :=
  ["button", "link", "heading", "navbar", "header", "footer", "hero", "form",
   "input", "image", "section", "card", "modal", "dropdown", "sidebar",
   "container", "other"]

theorem lookup_val_mem {l : List (String × String)} {k v : String}
    (h : l.lookup k = some v) : v ∈ l.map Prod.snd := by
  induction l with
  | nil => simp [List.lookup] at h
  | cons p t ih =>
    rw [List.lookup] at h
    by_cases hk : k == p.1
    · simp [hk] at h
      simp [← h]
    · simp [hk] at h
      exact List.mem_cons_of_mem _ (ih h)

theorem findSome_snd_mem {l : List (String × String)} {v : String}
    {f : String × String → Option String}
    (hf : ∀ kt r, f kt = some r → r = kt.2)
    (h : l.findSome? f = some v) : v ∈ l.map Prod.snd := by
  induction l with
  | nil => simp at h
  | cons p t ih =>
    rw [List.findSome?_cons] at h
    cases hfp : f p with
    | some w =>
      rw [hfp] at h
      cases h
      have hw : v = p.2 := hf p _ hfp
      simp [hw]
    | none =>
      rw [hfp] at h
      exact List.mem_cons_of_mem _ (ih h)

theorem classStage_mem {e : ElementData} {v : String}
    (h : classStage e = some v) : v ∈ class_keywords.map Prod.snd := by
  unfold classStage at h
  generalize hl : e.classes.map lowerStr = l at h
  clear hl
  induction l with
  | nil => simp at h
  | cons c t ih =>
    rw [List.findSome?_cons] at h
    cases hc : class_keywords.findSome? fun kt =>
        if hasSubS kt.1 c then some kt.2 else none with
    | some w =>
      rw [hc] at h
      cases h
      exact findSome_snd_mem (fun kt r hr => by split at hr <;> simp_all) hc
    | none =>
      rw [hc] at h
      exact ih h

theorem idStage_mem {e : ElementData} {v : String}
    (h : idStage e = some v) : v ∈ class_keywords.map Prod.snd :=
  findSome_snd_mem (fun kt r hr => by split at hr <;> simp_all) h

theorem detect_of_tag {e : ElementData} {t : String}
    (h : tagStage e = some t) : detect_element_type e = t := by
  unfold detect_element_type; rw [h]

/-- C9: the element classifier is total: every input yields a member of the
fixed ElementType enumeration; in particular a `div` with no role, no
classes and no id classifies as `other`. -/
theorem classifier_total_other :
    (∀ e : ElementData, detect_element_type e ∈ elementTypeEnum) ∧
    detect_element_type
      { tag_name := "div", aria_role := none, classes := [],
        element_id := none } = "other" := by
  constructor
  · intro e
    unfold detect_element_type
    cases htag : tagStage e with
    | some t =>
      have hm : t ∈ tag_type_map.map Prod.snd := lookup_val_mem htag
      have hall : ∀ v ∈ tag_type_map.map Prod.snd, v ∈ elementTypeEnum := by decide
      exact hall t hm
    | none =>
      cases hrole : roleStage e with
      | some t =>
        have hm : t ∈ role_type_map.map Prod.snd := lookup_val_mem hrole
        have hall : ∀ v ∈ role_type_map.map Prod.snd, v ∈ elementTypeEnum := by decide
        exact hall t hm
      | none =>
        cases hcls : classStage e with
        | some t =>
          have hm : t ∈ class_keywords.map Prod.snd := classStage_mem hcls
          have hall : ∀ v ∈ class_keywords.map Prod.snd, v ∈ elementTypeEnum := by decide
          exact hall t hm
        | none =>
          cases hid : idStage e with
          | some t =>
            have hm : t ∈ class_keywords.map Prod.snd := idStage_mem hid
            have hall : ∀ v ∈ class_keywords.map Prod.snd, v ∈ elementTypeEnum := by decide
            exact hall t hm
          | none => decide
  · decide

/-- C1: stage precedence of the classifier -- tag beats role beats class
beats id, first match wins; in particular a `nav` tag with a `card` class
classifies as `navbar`. -/
theorem classifier_precedence (e : ElementData) :
    (∀ t, tagStage e = some t → detect_element_type e = t) ∧
    (tagStage e = none → ∀ t, roleStage e = some t → detect_element_type e = t) ∧
    (tagStage e = none → roleStage e = none →
      ∀ t, classStage e = some t → detect_element_type e = t) ∧
    (tagStage e = none → roleStage e = none → classStage e = none →
      ∀ t, idStage e = some t → detect_element_type e = t) ∧
    (e.tag_name = "nav" → "card" ∈ e.classes → detect_element_type e = "navbar") := by
  refine ⟨?_, ?_, ?_, ?_, ?_⟩
  · intro t h; exact detect_of_tag h
  · intro h0 t h; unfold detect_element_type; rw [h0, h]
  · intro h0 h1 t h; unfold detect_element_type; rw [h0, h1, h]
  · intro h0 h1 h2 t h; unfold detect_element_type; rw [h0, h1, h2, h]
  · intro htag _
    apply detect_of_tag
    unfold tagStage
    rw [htag]
    decide

/-- Witness for C1 at a concrete element: tag `nav`, class list `["card"]`. -/
theorem classifier_precedence_witness :
    ("nav" : String) = "nav" ∧ "card" ∈ ["card", "fancy"] ∧
    detect_element_type
      { tag_name := "nav", aria_role := none, classes := ["card", "fancy"],
        element_id := none } = "navbar" :=
  ⟨rfl, by decide,
    (classifier_precedence
      { tag_name := "nav", aria_role := none, classes := ["card", "fancy"],
        element_id := none }).2.2.2.2 rfl (by decide)⟩

/- ===================== Query Interpreter (analyzer.py) ===================== -/

/-- `QUERY_KEYWORDS` of `analyzer.py` (dict insertion order preserved). -/
def QUERY_KEYWORDS : List (String × List String) :=
  [("navbar", ["navbar", "navigation", "nav", "menu", "top bar", "topbar", "main menu"]),
   ("header", ["header", "top", "banner", "head", "title area"]),
   ("footer", ["footer", "bottom", "foot", "copyright"]),
   ("hero", ["hero", "banner", "splash", "intro", "landing", "main banner", "first section", "top section"]),
   ("button", ["button", "btn", "cta", "call to action", "click", "submit"]),
   ("form", ["form", "input", "field", "textbox", "login", "signup", "register", "contact form"]),
   ("card", ["card", "tile", "box", "panel", "item"]),
   ("sidebar", ["sidebar", "side bar", "side menu", "aside", "left menu", "right menu"]),
   ("modal", ["modal", "popup", "dialog", "overlay", "lightbox"]),
   ("heading", ["heading", "title", "h1", "h2", "headline"]),
   ("image", ["image", "img", "picture", "photo", "icon", "logo"]),
   ("section", ["section", "area", "part", "block", "div"]),
   ("layout", ["layout", "grid", "flex", "spacing", "alignment", "margin", "padding"]),
   ("responsive", ["mobile", "responsive", "breakpoint", "screen size", "viewport", "tablet", "phone", "desktop"])]

/-- `issue_keywords` of `interpret_user_query`. -/
def issue_keywords : List (String × List String) :=
  [("broken", ["broken", "messed up", "messed", "wrong", "bad", "ugly", "terrible"]),
   ("alignment", ["aligned", "alignment", "align", "center", "centered", "left", "right", "off"]),
   ("spacing", ["spacing", "space", "gap", "margin", "padding", "too close", "too far", "crowded"]),
   ("overlap", ["overlap", "overlapping", "on top of", "behind", "in front"]),
   ("size", ["too big", "too small", "size", "width", "height", "narrow", "wide"]),
   ("visibility", ["hidden", "invisible", "can\x27t see", "not showing", "missing", "disappeared"]),
   ("color", ["color", "colour", "dark", "light", "contrast", "faded", "bright"]),
   ("responsive", ["mobile", "phone", "tablet", "responsive", "screen size", "shrink"]),
   ("layout", ["layout", "grid", "flex", "row", "column", "side by side", "stacked"]),
   ("text", ["text", "font", "readable", "unreadable", "too small", "too big"]),
   ("position", ["position", "moved", "shifted", "wrong place", "top", "bottom"])]

/-- One step of the keyword scan: if the keyword occurs in the query, record
the entry name unless it is already recorded (`not in` check in the source). -/
def addHit (ql name : String) (acc : List String) (kw : String) : List String :=
  if hasSubS kw ql then (if acc.contains name then acc else acc ++ [name]) else acc

/-- The double loop of `interpret_user_query`: first-seen order, no
duplicates. -/
def scanTable (ql : String) (table : List (String × List String)) : List String :=
  table.foldl (fun acc ent => ent.2.foldl (addHit ql ent.1) acc) []

/-- Return shape of `interpret_user_query`. -/
structure QueryInterpretation where
  element_types : List String
  issue_hints : List String
  interpreted_meaning : String
deriving DecidableEq

/-- `interpret_user_query` of `analyzer.py`. -/
def interpret_user_query (query : String) : QueryInterpretation :=
  let ql := lowerStr query
  let element_types := scanTable ql QUERY_KEYWORDS
  let issue_hints := scanTable ql issue_keywords
  let elements_str :=
    if element_types.isEmpty then "general UI" else String.intercalate ", " element_types
  let issues_str :=
    if issue_hints.isEmpty then "unknown issues" else String.intercalate ", " issue_hints
  { element_types := element_types, issue_hints := issue_hints,
    interpreted_meaning :=
      "User is reporting " ++ issues_str ++ " with the " ++ elements_str }

theorem addHit_nodup {ql n : String} {acc : List String} (h : acc.Nodup)
    (kw : String) : (addHit ql n acc kw).Nodup := by
  unfold addHit
  split
  · split
    · exact h
    · rename_i hc
      have hn : n ∉ acc := by simpa using hc
      simp [List.nodup_append, h, hn]
  · exact h

theorem foldl_addHit_nodup {ql n : String} :
    ∀ (kws : List String) (acc : List String), acc.Nodup →
      (kws.foldl (addHit ql n) acc).Nodup := by
  intro kws
  induction kws with
  | nil => intro acc h; exact h
  | cons k t ih => intro acc h; exact ih _ (addHit_nodup h k)

theorem scanTable_nodup (ql : String) (table : List (String × List String)) :
    (scanTable ql table).Nodup := by
  unfold scanTable
  have hgen : ∀ (tb : List (String × List String)) (acc : List String), acc.Nodup →
      (tb.foldl (fun acc ent => ent.2.foldl (addHit ql ent.1) acc) acc).Nodup := by
    intro tb
    induction tb with
    | nil => intro acc h; exact h
    | cons ent t ih => intro acc h; exact ih _ (foldl_addHit_nodup ent.2 acc h)
  exact hgen table [] List.nodup_nil

/-- C7: the query interpreter never records a duplicate element type or issue
hint, and `interpret_user_query "navbar navbar navbar"` yields exactly
`["navbar"]` (idempotence and order-insensitivity of duplicate keywords). -/
theorem query_interpreter_no_duplicates :
    (∀ q : String, (interpret_user_query q).element_types.Nodup ∧
      (interpret_user_query q).issue_hints.Nodup) ∧
    (interpret_user_query "navbar navbar navbar").element_types = ["navbar"] := by
  refine ⟨fun q => ⟨scanTable_nodup _ _, scanTable_nodup _ _⟩, ?_⟩
  decide

/- ===================== Issue Detector (analyzer.py) ===================== -/

/-- The per-element facts read by the in-page issue-detection script
(`detect_ui_issues` in `analyzer.py`). Pixel quantities are modelled as
`Int`; `zIndex` is the result of `parseInt(style.zIndex)` with `none` for
non-numeric values (NaN compares false). -/
structure RawElement where
  tagName : String
  rectRight : Int
  rectHeight : Int
  position : String
  overflowX : String
  scrollWidth : Int
  clientWidth : Int
  zIndex : Option Int
  childrenCount : Nat
  textContent : String
  id : String
  className : String
  alt : String
  ariaLabel : Option String
deriving DecidableEq

/-- The page as seen by the detection script: viewport width plus all
elements in document order. -/
structure PageModel where
  innerWidth : Int
  elements : List RawElement
deriving DecidableEq

/-- JS falsiness of a nullable string attribute. -/
def jsOptFalsy : Option String → Bool
  | none => true
  | some s => s == ""

/-- Selector generation of the detection script:
`el.id ? '#'+el.id : el.className ? '.'+el.className.split(' ')[0] : tag`. -/
def jsSelector (el : RawElement) : String :=
  if el.id != "" then "#" ++ el.id
  else if el.className != "" then "." ++ headTok el.className
  else el.tagName

/-- An issue object pushed by the in-page script. -/
structure JSIssue where
  selector : String
  type : String
  description : String
  element_type : String
  current_value : Option String
deriving DecidableEq

/-- The `querySelectorAll('*')` loop: overflow check, then z-index check,
per element. -/
def overflowZIssues (w : Int) (el : RawElement) : List JSIssue :=
  (if el.rectRight > w && el.position != "fixed" &&
      el.scrollWidth > el.clientWidth && el.overflowX == "visible" then
    [{ selector := jsSelector el, type := "overflow_hidden",
       description := "Element extends beyond viewport causing horizontal scroll",
       element_type := el.tagName, current_value := none }]
   else []) ++
  (match el.zIndex with
   | some z =>
     if z > 9999 then
       [{ selector := jsSelector el, type := "z_index_conflict",
          description := "Element has extremely high z-index (" ++ toString z ++
            ") which may cause stacking issues",
          element_type := el.tagName, current_value := some (toString z) }]
     else []
   | none => [])

/-- The `querySelectorAll('div, section, main, article')` empty-container
check. -/
def emptyContainerIssues (el : RawElement) : List JSIssue :=
  if el.childrenCount == 0 && trimStr el.textContent == "" && el.rectHeight > 50 then
    [{ selector := jsSelector el, type := "empty_container",
       description := "Empty container taking up space",
       element_type := "container", current_value := none }]
  else []

/-- The `querySelectorAll('img')` accessibility check (`!el.alt` and no
aria-label). -/
def imgAccIssues (el : RawElement) : List JSIssue :=
  if el.alt == "" && jsOptFalsy el.ariaLabel then
    [{ selector := if el.id != "" then "#" ++ el.id
                   else if el.className != "" then "." ++ headTok el.className
                   else "img",
       type := "accessibility_missing", description := "Image missing alt text",
       element_type := "image", current_value := none }]
  else []

/-- The `querySelectorAll('button, a')` accessibility check. -/
def interactiveAccIssues (el : RawElement) : List JSIssue :=
  if trimStr el.textContent == "" && jsOptFalsy el.ariaLabel then
    [{ selector := jsSelector el, type := "accessibility_missing",
       description := "Interactive element missing accessible name",
       element_type := if el.tagName == "button" then "button" else "link",
       current_value := none }]
  else []

/-- The full in-page detection script of `detect_ui_issues`, ending in
`issues.slice(0, 20)`. -/
def detect_ui_issues_js (p : PageModel) : List JSIssue :=
  ((p.elements.map (overflowZIssues p.innerWidth)).flatten ++
   ((p.elements.filter fun el =>
       el.tagName == "div" || el.tagName == "section" ||
       el.tagName == "main" || el.tagName == "article").map emptyContainerIssues).flatten ++
   ((p.elements.filter fun el => el.tagName == "img").map imgAccIssues).flatten ++
   ((p.elements.filter fun el =>
       el.tagName == "button" || el.tagName == "a").map interactiveAccIssues).flatten).take 20

/-- `UIIssue` of `models.py` (pydantic model; optional fields default to
`none`). -/
structure UIIssue where
  severity : String
  element_selector : String
  element_type : String
  issue_type : String
  description : String
  suggested_fix : String
  css_property : Option String := none
  current_value : Option String := none
  recommended_value : Option String := none
  code_snippet : Option String := none
deriving DecidableEq

/-- `generate_fix_suggestion` of `analyzer.py`: fixed per-kind templates with
a generic fallback. -/
def generate_fix_suggestion (issue_type selector : String) : String :=
  if issue_type == "overflow_hidden" then
    "Add \x27overflow-x: hidden\x27 to the parent container or \x27max-width: 100%\x27 to " ++ selector
  else if issue_type == "z_index_conflict" then
    "Reduce z-index on " ++ selector ++ " to a reasonable value (10-100 for most UI elements)"
  else if issue_type == "empty_container" then
    "Remove the empty " ++ selector ++ " element or add content to it"
  else if issue_type == "accessibility_missing" then
    "Add appropriate alt text or aria-label to " ++ selector
  else if issue_type == "element_overlap" then
    "Adjust position or z-index of " ++ selector ++ " to prevent overlap"
  else if issue_type == "spacing_inconsistent" then
    "Standardize padding/margin values on " ++ selector
  else
    "Review and fix the " ++ issue_type ++ " issue on " ++ selector

/-- The Python loop of `detect_ui_issues` turning one script issue into a
`UIIssue` (severity is always the literal `"warning"`). -/
def toUIIssue (d : JSIssue) : UIIssue :=
  { severity := "warning", element_selector := d.selector,
    element_type := d.element_type, issue_type := d.type,
    description := d.description,
    suggested_fix := generate_fix_suggestion d.type d.selector,
    current_value := d.current_value }

/-- `detect_ui_issues` of `analyzer.py` (its pure content: the in-page scan
followed by the Python wrapping loop). -/
def detect_ui_issues (p : PageModel) : List UIIssue :=
  (detect_ui_issues_js p).map toUIIssue

/-- C8: the issue detector returns at most 20 issues regardless of input
size. -/
theorem detect_ui_issues_cap (p : PageModel) :
    (detect_ui_issues p).length ≤ 20 := by
  unfold detect_ui_issues detect_ui_issues_js
  simp [List.length_take]

/-- C10: every issue the detector emits has severity `"warning"`. -/
theorem detect_ui_issues_severity (p : PageModel) (i : UIIssue)
    (h : i ∈ detect_ui_issues p) : i.severity = "warning" := by
  unfold detect_ui_issues at h
  obtain ⟨d, _, rfl⟩ := List.mem_map.1 h
  rfl

/-- Concrete page for the C10 witness: a single `img` with no alt text. -/
def witnessImg : RawElement :=
  { tagName := "img", rectRight := 0, rectHeight := 0, position := "static",
    overflowX := "visible", scrollWidth := 0, clientWidth := 0, zIndex := none,
    childrenCount := 0, textContent := "", id := "", className := "",
    alt := "", ariaLabel := none }

/-- The issue produced for `witnessImg`. -/
def witnessIssue : UIIssue :=
  { severity := "warning", element_selector := "img", element_type := "image",
    issue_type := "accessibility_missing", description := "Image missing alt text",
    suggested_fix := "Add appropriate alt text or aria-label to img" }

/-- Witness for C10: on a concrete one-image page an issue is produced and it
has severity `"warning"`. -/
theorem detect_ui_issues_severity_witness :
    witnessIssue ∈ detect_ui_issues { innerWidth := 1000, elements := [witnessImg] } ∧
    witnessIssue.severity = "warning" :=
  ⟨by decide,
   detect_ui_issues_severity { innerWidth := 1000, elements := [witnessImg] }
     witnessIssue (by decide)⟩

/- ===================== Fix Synthesizer (analyzer.py) ===================== -/

/-- `UIElement` of `models.py`, restricted to the fields the fix synthesizer
reads (`element_type` and `selector`). -/
structure UIElement where
  element_type : String
  selector : String
deriving DecidableEq

/-- `FixInstruction` of `models.py` (pydantic model; optional fields default
to `none`, `property_changes` is an insertion-ordered mapping). -/
structure FixInstruction where
  priority : Nat
  target_description : String
  selector : String
  file_hint : Option String := none
  action : String
  property_changes : List (String × String) := []
  before_code : Option String := none
  after_code : Option String := none
  explanation : String
deriving DecidableEq

/-- `action_map` of `create_fix_instruction`. -/
def action_map : List (String × String) :=
  [("layout_broken", "modify_css"), ("overflow_hidden", "modify_css"),
   ("z_index_conflict", "modify_css"), ("spacing_inconsistent", "modify_css"),
   ("alignment_off", "modify_css"), ("element_overlap", "modify_css"),
   ("broken_flexbox", "modify_css"), ("broken_grid", "modify_css"),
   ("accessibility_missing", "modify_html"), ("empty_container", "remove_html")]

/-- Python truthiness of an optional string (`None` and `""` are falsy). -/
def pyTruthy : Option String → Bool
  | none => false
  | some s => s != ""

/-- `create_fix_instruction` of `analyzer.py`. (The `code_snippet` keyword it
passes is silently dropped: `FixInstruction` has no such field and pydantic
ignores extra input.) -/
def create_fix_instruction (issue : UIIssue) (priority : Nat) : FixInstruction :=
  let property_changes : List (String × String) :=
    if pyTruthy issue.css_property && pyTruthy issue.recommended_value then
      [(issue.css_property.getD "", issue.recommended_value.getD "")]
    else if issue.issue_type == "overflow_hidden" then
      [("overflow-x", "hidden"), ("max-width", "100%")]
    else if issue.issue_type == "z_index_conflict" then
      [("z-index", "10")]
    else if issue.issue_type == "spacing_inconsistent" then
      [("padding", "1rem"), ("margin", "0")]
    else []
  { priority := priority,
    target_description := "Fix " ++ issue.issue_type ++ " on " ++ issue.element_type,
    selector := issue.element_selector,
    action := (action_map.lookup issue.issue_type).getD "modify_css",
    property_changes := property_changes,
    explanation := issue.suggested_fix }

/-- The CSS rule block appended per issue-derived instruction with property
changes. -/
def cssRule (selector : String) (props : List (String × String)) : String :=
  selector ++ " \x7b\n" ++
    String.join (props.map fun pv => "    " ++ pv.1 ++ ": " ++ pv.2 ++ ";\n") ++
  "\x7d"

/-- The issue filter of the synthesizer's first loop:
`if not target_types or any(t in issue.element_type for t in target_types)`
(note: `t in issue.element_type` is a substring test). -/
def qualifies (targets : List String) (issue : UIIssue) : Bool :=
  targets.isEmpty || targets.any fun t => hasSubS t issue.element_type

/-- The `for issue in issues` loop of `generate_fix_instructions_for_query`,
threading the priority counter and collecting CSS rule blocks. -/
def issueLoop (targets : List String) :
    List UIIssue → Nat → List FixInstruction × List String × Nat
  | [], p => ([], [], p)
  | issue :: rest, p =>
    if qualifies targets issue then
      let instr := create_fix_instruction issue p
      let css : List String :=
        if instr.property_changes.isEmpty then []
        else [cssRule issue.element_selector instr.property_changes]
      let r := issueLoop targets rest (p + 1)
      (instr :: r.1, css ++ r.2.1, r.2.2)
    else issueLoop targets rest p

/-- The generic spacing fix of the hint loop. -/
def spacingInstr (el : UIElement) (p : Nat) : FixInstruction :=
  { priority := p,
    target_description := "Adjust spacing on " ++ el.element_type,
    selector := el.selector, action := "modify_css",
    property_changes := [("padding", "1rem"), ("margin", "0 auto"), ("gap", "1rem")],
    explanation := "Standardize spacing on the " ++ el.element_type ++
      " element to fix layout issues" }

/-- The generic alignment fix of the hint loop. -/
def alignmentInstr (el : UIElement) (p : Nat) : FixInstruction :=
  { priority := p,
    target_description := "Fix alignment on " ++ el.element_type,
    selector := el.selector, action := "modify_css",
    property_changes := [("display", "flex"), ("align-items", "center"),
      ("justify-content", "center")],
    explanation := "Use flexbox to properly align content within " ++ el.element_type }

/-- The generic layout fix of the hint loop. -/
def layoutInstr (el : UIElement) (p : Nat) : FixInstruction :=
  { priority := p,
    target_description := "Fix layout on " ++ el.element_type,
    selector := el.selector, action := "modify_css",
    property_changes := [("display", "flex"), ("flex-direction", "row"),
      ("flex-wrap", "wrap"), ("gap", "1rem")],
    explanation := "Apply proper flexbox layout to " ++ el.element_type }

/-- Emit one instruction per element, threading the priority counter. -/
def emitWith (f : UIElement → Nat → FixInstruction) :
    List UIElement → Nat → List FixInstruction × Nat
  | [], p => ([], p)
  | el :: rest, p =>
    let r := emitWith f rest (p + 1)
    (f el p :: r.1, r.2)

/-- One hint of the `for hint in issue_hints` chain (`spacing`, `alignment`
and `layout` are handled, anything else emits nothing). -/
def hintStep (affected : List UIElement) (hint : String) (p : Nat) :
    List FixInstruction × Nat :=
  if hint == "spacing" && !affected.isEmpty then
    emitWith spacingInstr (affected.take 3) p
  else if hint == "alignment" && !affected.isEmpty then
    emitWith alignmentInstr (affected.take 3) p
  else if hint == "layout" && !affected.isEmpty then
    emitWith layoutInstr (affected.take 2) p
  else ([], p)

/-- The hint loop, continuing the priority counter. -/
def hintLoop (affected : List UIElement) :
    List String → Nat → List FixInstruction × Nat
  | [], p => ([], p)
  | h :: rest, p =>
    let r1 := hintStep affected h p
    let r2 := hintLoop affected rest r1.2
    (r1.1 ++ r2.1, r2.2)

/-- `generate_recommendations` of `analyzer.py`. -/
def generate_recommendations (query_info : QueryInterpretation)
    (elements : List UIElement) : List String :=
  let element_types := elements.map (·.element_type)
  (if !element_types.contains "navbar" then
    ["Consider adding a proper <nav> element with role=\x27navigation\x27 for better accessibility"]
   else []) ++
  (if !element_types.contains "footer" then
    ["Consider adding a <footer> element for site information and links"]
   else []) ++
  (if query_info.issue_hints.contains "responsive" then
    ["Add CSS media queries to handle different screen sizes",
     "Use relative units (rem, %, vw) instead of fixed pixels for better responsiveness"]
   else []) ++
  (if query_info.issue_hints.contains "layout" then
    ["Consider using CSS Grid or Flexbox for complex layouts",
     "Use a consistent spacing system (e.g., 0.5rem, 1rem, 2rem)"]
   else [])

/-- `FixInstructionsResult` of `models.py`. -/
structure FixInstructionsResult where
  url : String
  user_query : String
  interpreted_problem : String
  affected_elements : List UIElement
  fix_instructions : List FixInstruction
  summary : String
  css_changes : String
  html_changes : String
  additional_recommendations : List String
deriving DecidableEq

/-- `generate_fix_instructions_for_query` of `analyzer.py` (its pure
content; the `html_changes` list is never appended to, so that field is
always empty). -/
def generate_fix_instructions_for_query (url user_query : String)
    (elements : List UIElement) (issues : List UIIssue) : FixInstructionsResult :=
  let query_info := interpret_user_query user_query
  let target_types := query_info.element_types
  let affected_elements :=
    if target_types.isEmpty then elements.take 10
    else elements.filter fun el => target_types.contains el.element_type
  let r := issueLoop target_types issues 1
  let rh := hintLoop affected_elements query_info.issue_hints r.2.2
  let fix_instructions := r.1 ++ rh.1
  let css_changes := r.2.1
  let summary_parts :=
    (if fix_instructions.isEmpty then []
     else ["Found " ++ toString fix_instructions.length ++ " fixes to apply"]) ++
    (if affected_elements.isEmpty then []
     else ["Affects " ++ toString affected_elements.length ++ " elements"])
  { url := url, user_query := user_query,
    interpreted_problem := query_info.interpreted_meaning,
    affected_elements := affected_elements,
    fix_instructions := fix_instructions,
    summary := if summary_parts.isEmpty then "No specific fixes identified"
               else String.intercalate ". " summary_parts,
    css_changes := if css_changes.isEmpty then ""
                   else String.intercalate "\n\n" css_changes,
    html_changes := "",
    additional_recommendations := generate_recommendations query_info elements }

/-- The qualifying issues enumerated with consecutive priorities from
`start` (reference form of the first loop's output). -/
def withPriorities (start : Nat) : List UIIssue → List FixInstruction
  | [] => []
  | i :: rest => create_fix_instruction i start :: withPriorities (start + 1) rest

/-- `[s, s+1, ..., s+n-1]`: consecutive naturals. -/
def natSeq (s : Nat) : Nat → List Nat
  | 0 => []
  | n + 1 => s :: natSeq (s + 1) n

theorem natSeq_append (s a : Nat) :
    ∀ b, natSeq s a ++ natSeq (s + a) b = natSeq s (a + b) := by
  induction a generalizing s with
  | zero => intro b; simp [natSeq]
  | succ n ih =>
    intro b
    show s :: (natSeq (s + 1) n ++ natSeq (s + (n + 1)) b) = _
    have : s + (n + 1) = (s + 1) + n := by omega
    rw [this, ih (s + 1) b]
    show s :: natSeq (s + 1) (n + b) = natSeq s (n + 1 + b)
    have : n + 1 + b = (n + b) + 1 := by omega
    rw [this]
    rfl

theorem withPriorities_map (l : List UIIssue) :
    ∀ p, (withPriorities p l).map (·.priority) = natSeq p l.length := by
  induction l with
  | nil => intro p; rfl
  | cons i t ih =>
    intro p
    show (create_fix_instruction i p).priority :: (withPriorities (p+1) t).map (·.priority)
      = natSeq p (t.length + 1)
    rw [ih (p+1)]
    rfl

theorem withPriorities_length (l : List UIIssue) :
    ∀ p, (withPriorities p l).length = l.length := by
  induction l with
  | nil => intro p; rfl
  | cons i t ih =>
    intro p
    show (withPriorities (p+1) t).length + 1 = t.length + 1
    rw [ih (p+1)]

theorem issueLoop_fst (targets : List String) (issues : List UIIssue) :
    ∀ p, (issueLoop targets issues p).1
      = withPriorities p (issues.filter (qualifies targets)) := by
  induction issues with
  | nil => intro p; rfl
  | cons i t ih =>
    intro p
    unfold issueLoop
    split
    · rename_i hq
      rw [List.filter_cons_of_pos hq]
      show create_fix_instruction i p :: (issueLoop targets t (p+1)).1 = _
      rw [ih (p+1)]
      rfl
    · rename_i hq
      rw [List.filter_cons_of_neg hq]
      exact ih p

theorem issueLoop_counter (targets : List String) (issues : List UIIssue) :
    ∀ p, (issueLoop targets issues p).2.2
      = p + (issues.filter (qualifies targets)).length := by
  induction issues with
  | nil => intro p; rfl
  | cons i t ih =>
    intro p
    unfold issueLoop
    split
    · rename_i hq
      rw [List.filter_cons_of_pos hq]
      show (issueLoop targets t (p+1)).2.2 = _
      rw [ih (p+1)]
      simp [List.length_cons]
      omega
    · rename_i hq
      rw [List.filter_cons_of_neg hq]
      exact ih p

theorem emitWith_spec (f : UIElement → Nat → FixInstruction)
    (hf : ∀ el p, (f el p).priority = p) (l : List UIElement) :
    ∀ p, (emitWith f l p).1.map (·.priority) = natSeq p (emitWith f l p).1.length ∧
      (emitWith f l p).2 = p + (emitWith f l p).1.length := by
  induction l with
  | nil => intro p; exact ⟨rfl, rfl⟩
  | cons el t ih =>
    intro p
    have h := ih (p + 1)
    constructor
    · show (f el p).priority :: (emitWith f t (p+1)).1.map (·.priority)
        = natSeq p ((emitWith f t (p+1)).1.length + 1)
      rw [hf el p, h.1]
      rfl
    · show (emitWith f t (p+1)).2 = p + ((emitWith f t (p+1)).1.length + 1)
      rw [h.2]
      omega

theorem hintStep_spec (affected : List UIElement) (h : String) :
    ∀ p, (hintStep affected h p).1.map (·.priority)
        = natSeq p (hintStep affected h p).1.length ∧
      (hintStep affected h p).2 = p + (hintStep affected h p).1.length := by
  intro p
  unfold hintStep
  split
  · exact emitWith_spec spacingInstr (fun _ _ => rfl) _ p
  · split
    · exact emitWith_spec alignmentInstr (fun _ _ => rfl) _ p
    · split
      · exact emitWith_spec layoutInstr (fun _ _ => rfl) _ p
      · exact ⟨rfl, rfl⟩

theorem hintLoop_spec (affected : List UIElement) (hints : List String) :
    ∀ p, (hintLoop affected hints p).1.map (·.priority)
        = natSeq p (hintLoop affected hints p).1.length ∧
      (hintLoop affected hints p).2 = p + (hintLoop affected hints p).1.length := by
  induction hints with
  | nil => intro p; exact ⟨rfl, rfl⟩
  | cons h t ih =>
    intro p
    have h1 := hintStep_spec affected h p
    have h2 := ih (hintStep affected h p).2
    constructor
    · show ((hintStep affected h p).1 ++ (hintLoop affected t _).1).map (·.priority)
        = natSeq p ((hintStep affected h p).1 ++ (hintLoop affected t _).1).length
      rw [List.map_append, h1.1, h2.1, h1.2, List.length_append]
      exact natSeq_append p _ _
    · show (hintLoop affected t (hintStep affected h p).2).2
        = p + ((hintStep affected h p).1 ++ (hintLoop affected t _).1).length
      rw [h2.2, h1.2, List.length_append]
      omega

/-- The `affected_elements` computation of the synthesizer (reference form
used in the theorems; definitionally the one inside
`generate_fix_instructions_for_query`). -/
def affectedOf (q : String) (els : List UIElement) : List UIElement :=
  if (interpret_user_query q).element_types.isEmpty then els.take 10
  else els.filter fun el => (interpret_user_query q).element_types.contains el.element_type

/-- The issue-derived/hint-derived decomposition of the synthesizer's
output, used by the C2 and C6 theorems. -/
theorem fix_instructions_split (url q : String) (els : List UIElement)
    (issues : List UIIssue) :
    ∃ hintPart,
      (generate_fix_instructions_for_query url q els issues).fix_instructions
        = withPriorities 1
            (issues.filter (qualifies (interpret_user_query q).element_types))
          ++ hintPart := by
  refine ⟨(hintLoop (affectedOf q els) (interpret_user_query q).issue_hints
    (issueLoop (interpret_user_query q).element_types issues 1).2.2).1, ?_⟩
  show (issueLoop (interpret_user_query q).element_types issues 1).1
      ++ (hintLoop (affectedOf q els) (interpret_user_query q).issue_hints
        (issueLoop (interpret_user_query q).element_types issues 1).2.2).1
    = _
  rw [issueLoop_fst]

/-- C2: one `FixInstruction` is synthesized per issue exactly when one of the
interpreted element types is a substring of the issue's element type, or no
element types were interpreted (`qualifies`); the issue-derived instructions
precede the hint-derived ones, and every synthesized instruction's action is
the `action_map` entry for its issue kind, defaulting to `modify_css`. -/
theorem issue_instruction_synthesis (url q : String) (els : List UIElement)
    (issues : List UIIssue) :
    (∃ hintPart,
      (generate_fix_instructions_for_query url q els issues).fix_instructions
        = withPriorities 1
            (issues.filter (qualifies (interpret_user_query q).element_types))
          ++ hintPart) ∧
    (∀ p, (withPriorities p
        (issues.filter (qualifies (interpret_user_query q).element_types))).length
      = (issues.filter (qualifies (interpret_user_query q).element_types)).length) ∧
    (∀ (issue : UIIssue) (p : Nat),
      (create_fix_instruction issue p).action
        = (action_map.lookup issue.issue_type).getD "modify_css") :=
  ⟨fix_instructions_split url q els issues,
   fun p => withPriorities_length _ p,
   fun _ _ => rfl⟩

/-- C6: for a non-empty issue list the synthesized instruction priorities are
exactly 1, 2, ..., n in list order, and the list is the issue-derived
instructions (in stable input order) followed by the hint-derived ones. -/
theorem fix_priorities_gapless (url q : String) (els : List UIElement)
    (issues : List UIIssue) (hne : issues ≠ []) :
    ((generate_fix_instructions_for_query url q els issues).fix_instructions.map
        (·.priority)
      = natSeq 1
        (generate_fix_instructions_for_query url q els issues).fix_instructions.length)
    ∧ ∃ hintPart,
        (generate_fix_instructions_for_query url q els issues).fix_instructions
          = withPriorities 1
              (issues.filter (qualifies (interpret_user_query q).element_types))
            ++ hintPart := by
  constructor
  · show ((issueLoop (interpret_user_query q).element_types issues 1).1
        ++ (hintLoop (affectedOf q els) (interpret_user_query q).issue_hints
          (issueLoop (interpret_user_query q).element_types issues 1).2.2).1).map
        (·.priority)
      = natSeq 1
        ((issueLoop (interpret_user_query q).element_types issues 1).1
          ++ (hintLoop (affectedOf q els) (interpret_user_query q).issue_hints
            (issueLoop (interpret_user_query q).element_types issues 1).2.2).1).length
    rw [List.map_append, List.length_append]
    rw [issueLoop_fst, withPriorities_map, withPriorities_length]
    have hh := hintLoop_spec (affectedOf q els) (interpret_user_query q).issue_hints
      ((issueLoop (interpret_user_query q).element_types issues 1).2.2)
    rw [hh.1, issueLoop_counter]
    exact natSeq_append 1 _ _
  · exact fix_instructions_split url q els issues

/-- Issue used in the C6 witness and the C2 counterexample setup. -/
def navbarIssue : UIIssue :=
  { severity := "warning", element_selector := ".topnav",
    element_type := "navbar", issue_type := "z_index_conflict",
    description := "d", suggested_fix := "s" }

/-- Witness for C6 at a concrete non-empty input. -/
theorem fix_priorities_gapless_witness :
    ([navbarIssue] : List UIIssue) ≠ [] ∧
    (generate_fix_instructions_for_query "u" "navbar" [] [navbarIssue]).fix_instructions.map
        (·.priority)
      = natSeq 1
        (generate_fix_instructions_for_query "u" "navbar" [] [navbarIssue]).fix_instructions.length :=
  ⟨by decide, (fix_priorities_gapless "u" "navbar" [] [navbarIssue] (by decide)).1⟩

/-- Issue whose element type strictly contains the interpreted type
`"navbar"` as a substring without being equal to it. -/
def navbarsIssue : UIIssue :=
  { severity := "warning", element_selector := ".x",
    element_type := "navbars", issue_type := "other",
    description := "d", suggested_fix := "s" }

/-- Counterexample to C2 as stated: the query interprets exactly the type
`"navbar"`, the issue's element type `"navbars"` is not equal to it, yet one
fix instruction is synthesized for the issue (the code matches by substring,
not equality). -/
theorem issue_match_not_equality :
    (interpret_user_query "navbar").element_types = ["navbar"] ∧
    navbarsIssue.element_type ∉ (interpret_user_query "navbar").element_types ∧
    (generate_fix_instructions_for_query "u" "navbar" [] [navbarsIssue]).fix_instructions.length
      = 1 := by
  refine ⟨by decide, by decide, ?_⟩
  decide

/- ============== Tech Stack Fingerprinter (framework_detector.py) ============== -/

/-- The page-wide facts bundle collected by the in-page script of
`detect_tech_stack` (`detection_data`). `globals` holds the names of the
window globals found defined. -/
structure DetectionData where
  scripts : List String
  stylesheets : List String
  globals : List String
  attributes : List String
  classNames : List String
  dataAttributes : List String
  inlineStylesCount : Nat
  cssVariables : List String
  htmlHints : List String
deriving DecidableEq

/-- `detection_data["globals"].get(g)`. -/
def DetectionData.gets (d : DetectionData) (g : String) : Bool :=
  d.globals.contains g

/-- `FrameworkInfo` of `framework_detector.py`. -/
structure FrameworkInfo where
  name : String
  version : Option String := none
  confidence : String := "medium"
  category : String := "other"
  indicators : List String := []
deriving DecidableEq

/-- `TechStackResult` of `framework_detector.py` (dataclass defaults). -/
structure TechStackResult where
  primary_framework : Option String := none
  meta_framework : Option String := none
  css_approach : Option String := none
  frameworks : List FrameworkInfo := []
  has_react : Bool := false
  has_vue : Bool := false
  has_angular : Bool := false
  has_svelte : Bool := false
  has_nextjs : Bool := false
  has_nuxt : Bool := false
  has_remix : Bool := false
  has_astro : Bool := false
  has_gatsby : Bool := false
  has_vite : Bool := false
  has_tailwind : Bool := false
  has_bootstrap : Bool := false
  has_material_ui : Bool := false
  has_chakra_ui : Bool := false
  has_shadcn : Bool := false
  has_ant_design : Bool := false
  has_bulma : Bool := false
  has_foundation : Bool := false
  has_vanilla_js : Bool := false
  has_jquery : Bool := false
  has_typescript : Bool := false
  uses_css_modules : Bool := false
  uses_styled_components : Bool := false
  uses_emotion : Bool := false
  uses_sass : Bool := false
  uses_inline_styles : Bool := false
  uses_css_variables : Bool := false
  bundler_hints : List String := []
  summary : String := ""
  fix_approach : String := ""
deriving DecidableEq

/-- React branch condition of `detect_tech_stack`. -/
def reactDetected (d : DetectionData) : Bool :=
  d.gets "React" || d.gets "ReactDOM" || d.gets "__REACT_DEVTOOLS_GLOBAL_HOOK__" ||
  d.htmlHints.contains "react_root" ||
  d.scripts.any fun s => hasSubS "react" (lowerStr s)

/-- Vue branch condition. -/
def vueDetected (d : DetectionData) : Bool :=
  d.gets "Vue" || d.gets "__VUE__" ||
  (d.attributes.any fun a => hasSubS "v-" a) ||
  d.scripts.any fun s => hasSubS "vue" (lowerStr s)

/-- Angular branch condition. -/
def angularDetected (d : DetectionData) : Bool :=
  d.gets "ng" || d.gets "Zone" || d.htmlHints.contains "angular_version" ||
  d.attributes.any fun a => hasSubS "ng-" a || hasSubS "_ng" a

/-- `svelte_classes`. -/
def svelteClasses (d : DetectionData) : List String :=
  d.classNames.filter fun c => strStarts c "svelte-"

/-- Svelte branch condition. -/
def svelteDetected (d : DetectionData) : Bool :=
  !(svelteClasses d).isEmpty || d.gets "Svelte"

/-- Next.js branch condition. -/
def nextDetected (d : DetectionData) : Bool :=
  d.gets "__NEXT_DATA__" || d.htmlHints.contains "nextjs_data" ||
  d.htmlHints.contains "nextjs_root" ||
  d.scripts.any fun s => hasSubS "_next/" s

/-- Nuxt branch condition. -/
def nuxtDetected (d : DetectionData) : Bool :=
  d.gets "__NUXT__" || d.gets "$nuxt" || d.htmlHints.contains "nuxt_data" ||
  d.htmlHints.contains "nuxt_root"

/-- Remix branch condition. -/
def remixDetected (d : DetectionData) : Bool :=
  d.gets "__remixContext" || d.htmlHints.contains "remix_data"

/-- Astro branch condition. -/
def astroDetected (d : DetectionData) : Bool :=
  d.htmlHints.contains "astro_island" ||
  d.dataAttributes.any fun a => hasSubS "data-astro" a

/-- Gatsby branch condition. -/
def gatsbyDetected (d : DetectionData) : Bool :=
  d.gets "___gatsby" || d.htmlHints.contains "gatsby_data"

/-- Vite branch condition. -/
def viteDetected (d : DetectionData) : Bool := d.gets "__vite__"

/-- jQuery branch condition. -/
def jqueryDetected (d : DetectionData) : Bool :=
  d.gets "jQuery" || d.gets "$"

/-- `class_names = set(detection_data["classNames"])`: the distinct class
names (first occurrences kept; only membership, filtering and distinct
counts are taken from it). -/
def classSet (d : DetectionData) : List String := d.classNames.eraseDups

/-- `tailwind_patterns` hardcoded in `detect_tech_stack`. -/
def tailwind_patterns : List String :=
  ["flex", "grid", "hidden", "block", "inline-flex", "items-center",
   "justify-center", "space-x-", "space-y-", "gap-", "rounded-",
   "bg-", "text-", "font-", "p-", "m-", "px-", "py-", "mx-", "my-",
   "w-", "h-", "min-", "max-", "border-", "shadow-", "hover:",
   "focus:", "sm:", "md:", "lg:", "xl:", "dark:"]

/-- `tailwind_indicators` count. -/
def tailwindIndicators (d : DetectionData) : Nat :=
  tailwind_patterns.countP fun pat => (classSet d).any fun c => hasSubS pat c

/-- Tailwind presence (`tailwind_indicators >= 10`). -/
def tailwindDetected (d : DetectionData) : Bool := tailwindIndicators d ≥ 10

/-- `bootstrap_classes` hardcoded in `detect_tech_stack`. -/
def bootstrap_classes : List String :=
  ["container", "container-fluid", "row", "col-", "btn", "btn-",
   "navbar", "nav-", "card", "modal", "form-control", "table-"]

/-- `bootstrap_count`. -/
def bootstrapCount (d : DetectionData) : Nat :=
  bootstrap_classes.countP fun bc => (classSet d).any fun c => hasSubS bc c

/-- Bootstrap presence. -/
def bootstrapDetected (d : DetectionData) : Bool :=
  bootstrapCount d ≥ 5 ||
  (d.scripts ++ d.stylesheets).any fun s => hasSubS "bootstrap" (lowerStr s)

/-- `mui_classes`. -/
def muiClasses (d : DetectionData) : List String :=
  (classSet d).filter fun c => strStarts c "Mui" || strStarts c "css-"

/-- Material UI presence. -/
def materialUiDetected (d : DetectionData) : Bool := (muiClasses d).length ≥ 5

/-- `chakra_classes`. -/
def chakraClasses (d : DetectionData) : List String :=
  (classSet d).filter fun c => strStarts c "chakra-"

/-- Chakra UI presence. -/
def chakraDetected (d : DetectionData) : Bool :=
  !(chakraClasses d).isEmpty ||
  d.dataAttributes.any fun a => hasSubS "data-chakra" a

/-- `radix_attrs`. -/
def radixAttrs (d : DetectionData) : List String :=
  d.dataAttributes.filter fun a =>
    hasSubS "data-state" a || hasSubS "data-radix" a || hasSubS "data-side" a

/-- shadcn/ui presence (Radix attributes and Tailwind). -/
def shadcnDetected (d : DetectionData) : Bool :=
  !(radixAttrs d).isEmpty && tailwindDetected d

/-- `ant_classes`. -/
def antClasses (d : DetectionData) : List String :=
  (classSet d).filter fun c => strStarts c "ant-" || strStarts c "anticon"

/-- Ant Design presence. -/
def antDetected (d : DetectionData) : Bool := (antClasses d).length ≥ 3

/-- Bulma presence. -/
def bulmaDetected (d : DetectionData) : Bool :=
  (["column", "columns", "is-", "has-text-", "has-background-"].countP
    fun bp => (classSet d).any fun c => hasSubS bp c) ≥ 3

/-- Foundation presence. -/
def foundationDetected (d : DetectionData) : Bool :=
  (["grid-x", "grid-y", "cell", "small-", "medium-", "large-"].countP
    fun fp => (classSet d).any fun c => hasSubS fp c) ≥ 3

/-- `result.has_react` after the meta-framework implications
(Next.js/Remix/Gatsby also set it). -/
def hasReactFinal (d : DetectionData) : Bool :=
  reactDetected d || nextDetected d || remixDetected d || gatsbyDetected d

/-- `result.has_vue` after the Nuxt implication. -/
def hasVueFinal (d : DetectionData) : Bool :=
  vueDetected d || nuxtDetected d

/-- Vanilla-JS fallback (checked after all implications). -/
def vanillaDetected (d : DetectionData) : Bool :=
  !(hasReactFinal d || hasVueFinal d || angularDetected d ||
    svelteDetected d || jqueryDetected d)

/-- `FrameworkInfo` recorded for React. -/
def reactInfo (d : DetectionData) : FrameworkInfo :=
  { name := "React", category := "js_framework",
    confidence := if d.gets "React" then "high" else "medium",
    indicators := if d.gets "React" then ["Global React object found"]
                  else ["React patterns detected"] }

/-- `FrameworkInfo` recorded for Vue. -/
def vueInfo (d : DetectionData) : FrameworkInfo :=
  { name := "Vue.js", category := "js_framework",
    confidence := if d.gets "Vue" then "high" else "medium",
    indicators := if d.gets "Vue" then ["Global Vue object found"]
                  else ["Vue patterns detected"] }

/-- `FrameworkInfo` recorded for Angular. -/
def angularInfo (d : DetectionData) : FrameworkInfo :=
  { name := "Angular", category := "js_framework",
    confidence := if d.htmlHints.contains "angular_version" then "high" else "medium",
    indicators := ["Angular attributes detected"] }

/-- `FrameworkInfo` recorded for Svelte. -/
def svelteInfo (d : DetectionData) : FrameworkInfo :=
  { name := "Svelte", category := "js_framework",
    confidence := if !(svelteClasses d).isEmpty then "high" else "medium",
    indicators := ["Found " ++ toString (svelteClasses d).length ++ " Svelte-scoped classes"] }

/-- `FrameworkInfo` recorded for Next.js. -/
def nextInfo : FrameworkInfo :=
  { name := "Next.js", category := "meta_framework", confidence := "high",
    indicators := ["__NEXT_DATA__ found", "_next/ assets detected"] }

/-- `FrameworkInfo` recorded for Nuxt. -/
def nuxtInfo : FrameworkInfo :=
  { name := "Nuxt", category := "meta_framework", confidence := "high",
    indicators := ["__NUXT__ global found"] }

/-- `FrameworkInfo` recorded for Remix. -/
def remixInfo : FrameworkInfo :=
  { name := "Remix", category := "meta_framework", confidence := "high",
    indicators := ["Remix context found"] }

/-- `FrameworkInfo` recorded for Astro. -/
def astroInfo : FrameworkInfo :=
  { name := "Astro", category := "meta_framework", confidence := "high",
    indicators := ["Astro islands detected"] }

/-- `FrameworkInfo` recorded for Gatsby. -/
def gatsbyInfo : FrameworkInfo :=
  { name := "Gatsby", category := "meta_framework", confidence := "high",
    indicators := ["Gatsby globals found"] }

/-- `FrameworkInfo` recorded for jQuery. -/
def jqueryInfo : FrameworkInfo :=
  { name := "jQuery", category := "js_framework", confidence := "high",
    indicators := ["jQuery global found"] }

/-- `FrameworkInfo` recorded for Tailwind CSS. -/
def tailwindInfo (d : DetectionData) : FrameworkInfo :=
  { name := "Tailwind CSS", category := "css_framework",
    confidence := if tailwindIndicators d ≥ 15 then "high" else "medium",
    indicators := ["Found " ++ toString (tailwindIndicators d) ++
      " Tailwind utility class patterns"] }

/-- `FrameworkInfo` recorded for Bootstrap. -/
def bootstrapInfo (d : DetectionData) : FrameworkInfo :=
  { name := "Bootstrap", category := "css_framework",
    confidence := if bootstrapCount d ≥ 8 then "high" else "medium",
    indicators := ["Found " ++ toString (bootstrapCount d) ++ " Bootstrap class patterns"] }

/-- `FrameworkInfo` recorded for Material UI. -/
def muiInfo (d : DetectionData) : FrameworkInfo :=
  { name := "Material UI", category := "ui_library", confidence := "high",
    indicators := ["Found " ++ toString (muiClasses d).length ++ " MUI classes"] }

/-- `FrameworkInfo` recorded for Chakra UI. -/
def chakraInfo : FrameworkInfo :=
  { name := "Chakra UI", category := "ui_library", confidence := "high",
    indicators := ["Chakra UI classes detected"] }

/-- `FrameworkInfo` recorded for shadcn/ui. -/
def shadcnInfo : FrameworkInfo :=
  { name := "shadcn/ui", category := "ui_library", confidence := "medium",
    indicators := ["Radix UI primitives + Tailwind detected"] }

/-- `FrameworkInfo` recorded for Ant Design. -/
def antInfo (d : DetectionData) : FrameworkInfo :=
  { name := "Ant Design", category := "ui_library", confidence := "high",
    indicators := ["Found " ++ toString (antClasses d).length ++ " Ant Design classes"] }

/-- `FrameworkInfo` recorded for Bulma. -/
def bulmaInfo : FrameworkInfo :=
  { name := "Bulma", category := "css_framework", confidence := "medium",
    indicators := ["Bulma class patterns detected"] }

/-- `FrameworkInfo` recorded for Foundation. -/
def foundationInfo : FrameworkInfo :=
  { name := "Foundation", category := "css_framework", confidence := "medium",
    indicators := ["Foundation class patterns detected"] }

/-- `FrameworkInfo` recorded for the Vanilla-JS fallback. -/
def vanillaInfo : FrameworkInfo :=
  { name := "Vanilla JavaScript", category := "js_framework", confidence := "low",
    indicators := ["No major JS framework detected"] }

/-- Conditional append used to build the `frameworks` list in branch
order. -/
def optCons (b : Bool) (x : FrameworkInfo) (rest : List FrameworkInfo) :
    List FrameworkInfo :=
  if b then x :: rest else rest

/-- The `frameworks` list appended to in branch order by
`detect_tech_stack`. -/
def frameworksOf (d : DetectionData) : List FrameworkInfo :=
  optCons (reactDetected d) (reactInfo d) <|
  optCons (vueDetected d) (vueInfo d) <|
  optCons (angularDetected d) (angularInfo d) <|
  optCons (svelteDetected d) (svelteInfo d) <|
  optCons (nextDetected d) nextInfo <|
  optCons (nuxtDetected d) nuxtInfo <|
  optCons (remixDetected d) remixInfo <|
  optCons (astroDetected d) astroInfo <|
  optCons (gatsbyDetected d) gatsbyInfo <|
  optCons (jqueryDetected d) jqueryInfo <|
  optCons (tailwindDetected d) (tailwindInfo d) <|
  optCons (bootstrapDetected d) (bootstrapInfo d) <|
  optCons (materialUiDetected d) (muiInfo d) <|
  optCons (chakraDetected d) chakraInfo <|
  optCons (shadcnDetected d) shadcnInfo <|
  optCons (antDetected d) (antInfo d) <|
  optCons (bulmaDetected d) bulmaInfo <|
  optCons (foundationDetected d) foundationInfo <|
  optCons (vanillaDetected d) vanillaInfo []

/-- The CSS-approach resolution chain of `detect_tech_stack`. -/
def cssApproachOf (d : DetectionData) : String :=
  if tailwindDetected d then "tailwind"
  else if bootstrapDetected d then "bootstrap"
  else if materialUiDetected d || chakraDetected d || antDetected d then "component-library"
  else if (classSet d).any (fun c => hasSubS "css-" c) then "css-modules"
  else if d.inlineStylesCount > 20 then "inline-styles"
  else "traditional-css"

/-- `result.uses_css_modules`: set only inside the css-modules branch of the
resolution chain. -/
def usesCssModulesOf (d : DetectionData) : Bool :=
  !tailwindDetected d && !bootstrapDetected d &&
  !(materialUiDetected d || chakraDetected d || antDetected d) &&
  (classSet d).any fun c => hasSubS "css-" c

/-- `result.uses_inline_styles`: set only inside the inline-styles branch. -/
def usesInlineStylesOf (d : DetectionData) : Bool :=
  !tailwindDetected d && !bootstrapDetected d &&
  !(materialUiDetected d || chakraDetected d || antDetected d) &&
  !((classSet d).any fun c => hasSubS "css-" c) &&
  d.inlineStylesCount > 20

/-- The primary-framework resolution chain. -/
def primaryOf (d : DetectionData) : String :=
  if nextDetected d then "Next.js"
  else if nuxtDetected d then "Nuxt"
  else if remixDetected d then "Remix"
  else if gatsbyDetected d then "Gatsby"
  else if astroDetected d then "Astro"
  else if hasReactFinal d then "React"
  else if hasVueFinal d then "Vue.js"
  else if angularDetected d then "Angular"
  else if svelteDetected d then "Svelte"
  else "Vanilla JS/HTML"

/-- The meta-framework resolution (set only in the meta-framework
branches). -/
def metaOf (d : DetectionData) : Option String :=
  if nextDetected d then some "Next.js"
  else if nuxtDetected d then some "Nuxt"
  else if remixDetected d then some "Remix"
  else if gatsbyDetected d then some "Gatsby"
  else if astroDetected d then some "Astro"
  else none

/-- The `css_name` display mapping in `generate_tech_summary`. -/
def cssNameMap : List (String × String) :=
  [("tailwind", "Tailwind CSS"), ("bootstrap", "Bootstrap"),
   ("component-library", "Component Library CSS"), ("css-modules", "CSS Modules"),
   ("inline-styles", "Inline Styles"), ("traditional-css", "Traditional CSS")]

/-- `generate_tech_summary` of `framework_detector.py`. (The strings the
detector assigns to `meta_framework`, `primary_framework` and
`css_approach` are never empty, so Python truthiness coincides with the
`Option` match.) -/
def generate_tech_summary (r : TechStackResult) : String :=
  let parts : List String :=
    (match r.meta_framework with
     | some m => ["Meta Framework: " ++ m]
     | none =>
       match r.primary_framework with
       | some pf => ["JS Framework: " ++ pf]
       | none => []) ++
    (match r.css_approach with
     | some ca => ["CSS: " ++ (cssNameMap.lookup ca).getD ca]
     | none => []) ++
    (let ui_libs :=
      (if r.has_shadcn then ["shadcn/ui"] else []) ++
      (if r.has_material_ui then ["Material UI"] else []) ++
      (if r.has_chakra_ui then ["Chakra UI"] else []) ++
      (if r.has_ant_design then ["Ant Design"] else [])
     if ui_libs.isEmpty then [] else ["UI Library: " ++ String.intercalate ", " ui_libs]) ++
    (if r.uses_css_variables then ["Uses CSS Variables"] else [])
  if parts.isEmpty then "Standard HTML/CSS/JS" else String.intercalate " | " parts

/-- `generate_fix_approach` of `framework_detector.py`. -/
def generate_fix_approach (r : TechStackResult) : String :=
  let approaches : List String :=
    (if r.has_nextjs then
      ["Next.js: Use className prop for styling. Check globals.css for base styles. Component files are typically in /components or /app directories. For Tailwind issues, check tailwind.config.js for theme customization."]
     else if r.has_nuxt then
      ["Nuxt: Check <style scoped> sections in .vue files. Global styles in assets/css or nuxt.config styles array. Use Nuxt DevTools to inspect component hierarchy."]
     else if r.has_react then
      ["React: Styles can be in CSS files, CSS modules (.module.css), styled-components, or inline style objects. Check the component file imports."]
     else if r.has_vue then
      ["Vue: Check <style> or <style scoped> in .vue files. Scoped styles only affect current component."]
     else if r.has_angular then
      ["Angular: Check component.css/scss files alongside component.ts. Use ::ng-deep for child component styling (deprecated but common)."]
     else if r.has_svelte then
      ["Svelte: Styles are scoped by default in <style> tags. Use :global() for unscoped styles."]
     else []) ++
    (if r.has_tailwind then
      ["Tailwind: Modify classes directly in JSX/HTML. For custom values, use arbitrary values like w-[200px] or extend theme in tailwind.config.js. Use @apply in CSS for reusable class combinations."]
     else if r.has_bootstrap then
      ["Bootstrap: Use Bootstrap utility classes for quick fixes. Override in custom CSS with higher specificity. Check Bootstrap version for available classes."]
     else []) ++
    (if r.has_shadcn then
      ["shadcn/ui: Components are in /components/ui. Modify the component source directly or override with className. Theme colors defined in globals.css CSS variables."]
     else if r.has_material_ui then
      ["Material UI: Use sx prop for inline styles or styled() API. Theme customization in ThemeProvider. Use MUI system props like m, p, display."]
     else if r.has_chakra_ui then
      ["Chakra UI: Use style props directly on components. Theme in ChakraProvider. Supports responsive arrays."]
     else [])
  if approaches.isEmpty then
    "Standard CSS: Edit stylesheets directly. Use browser DevTools to identify the exact CSS rules to modify. Check for !important rules that might override changes."
  else String.intercalate " " approaches

/-- `detect_tech_stack` of `framework_detector.py` (its pure content, taking
the collected page facts). -/
def detect_tech_stack (d : DetectionData) : TechStackResult :=
  let base : TechStackResult :=
    { primary_framework := some (primaryOf d),
      meta_framework := metaOf d,
      css_approach := some (cssApproachOf d),
      frameworks := frameworksOf d,
      has_react := hasReactFinal d,
      has_vue := hasVueFinal d,
      has_angular := angularDetected d,
      has_svelte := svelteDetected d,
      has_nextjs := nextDetected d,
      has_nuxt := nuxtDetected d,
      has_remix := remixDetected d,
      has_astro := astroDetected d,
      has_gatsby := gatsbyDetected d,
      has_vite := viteDetected d,
      has_tailwind := tailwindDetected d,
      has_bootstrap := bootstrapDetected d,
      has_material_ui := materialUiDetected d,
      has_chakra_ui := chakraDetected d,
      has_shadcn := shadcnDetected d,
      has_ant_design := antDetected d,
      has_bulma := bulmaDetected d,
      has_foundation := foundationDetected d,
      has_vanilla_js := vanillaDetected d,
      has_jquery := jqueryDetected d,
      uses_css_modules := usesCssModulesOf d,
      uses_inline_styles := usesInlineStylesOf d,
      uses_css_variables := d.cssVariables.length > 5,
      bundler_hints := if viteDetected d then ["Vite"] else [] }
  { base with
    summary := generate_tech_summary base,
    fix_approach := generate_fix_approach base }

/-- C4: the CSS approach is resolved by fixed precedence: tailwind >
bootstrap > any UI component library > hashed class names (css-modules) >
more than 20 inline styles > traditional CSS. -/
theorem css_approach_precedence (d : DetectionData) :
    (detect_tech_stack d).css_approach = some (
      if (detect_tech_stack d).has_tailwind then "tailwind"
      else if (detect_tech_stack d).has_bootstrap then "bootstrap"
      else if (detect_tech_stack d).has_material_ui ||
              (detect_tech_stack d).has_chakra_ui ||
              (detect_tech_stack d).has_ant_design then "component-library"
      else if (classSet d).any (fun c => hasSubS "css-" c) then "css-modules"
      else if d.inlineStylesCount > 20 then "inline-styles"
      else "traditional-css") := rfl

/-- C5: detecting a meta-framework implies its underlying framework:
Next.js, Remix and Gatsby each imply React, and Nuxt implies Vue. -/
theorem meta_framework_implies_base (d : DetectionData) :
    ((detect_tech_stack d).has_nextjs = true → (detect_tech_stack d).has_react = true) ∧
    ((detect_tech_stack d).has_remix = true → (detect_tech_stack d).has_react = true) ∧
    ((detect_tech_stack d).has_gatsby = true → (detect_tech_stack d).has_react = true) ∧
    ((detect_tech_stack d).has_nuxt = true → (detect_tech_stack d).has_vue = true) := by
  refine ⟨fun h => ?_, fun h => ?_, fun h => ?_, fun h => ?_⟩
  · show hasReactFinal d = true
    have h' : nextDetected d = true := h
    simp [hasReactFinal, h']
  · show hasReactFinal d = true
    have h' : remixDetected d = true := h
    simp [hasReactFinal, h']
  · show hasReactFinal d = true
    have h' : gatsbyDetected d = true := h
    simp [hasReactFinal, h']
  · show hasVueFinal d = true
    have h' : nuxtDetected d = true := h
    simp [hasVueFinal, h']

/-- Page facts with only the `__NEXT_DATA__` global set: Next.js is detected
while no direct React signal is present. -/
def nextOnlyFacts : DetectionData :=
  { scripts := [], stylesheets := [], globals := ["__NEXT_DATA__"],
    attributes := [], classNames := [], dataAttributes := [],
    inlineStylesCount := 0, cssVariables := [], htmlHints := [] }

/-- Witness for C5: Next.js detected with no direct React signal still sets
`has_react`. -/
theorem meta_framework_implies_base_witness :
    (detect_tech_stack nextOnlyFacts).has_nextjs = true ∧
    reactDetected nextOnlyFacts = false ∧
    (detect_tech_stack nextOnlyFacts).has_react = true :=
  ⟨by decide, by decide, (meta_framework_implies_base nextOnlyFacts).1 (by decide)⟩

/-- Page facts where React is detected only through the
`__REACT_DEVTOOLS_GLOBAL_HOOK__` global. -/
def devtoolsOnlyFacts : DetectionData :=
  { scripts := [], stylesheets := [], globals := ["__REACT_DEVTOOLS_GLOBAL_HOOK__"],
    attributes := [], classNames := [], dataAttributes := [],
    inlineStylesCount := 0, cssVariables := [], htmlHints := [] }

/-- Counterexample to C3 as stated: React detected via the
`__REACT_DEVTOOLS_GLOBAL_HOOK__` global is recorded with confidence
`"medium"`, not `"high"` (only the `React` global itself yields high). -/
theorem react_confidence_counterexample :
    devtoolsOnlyFacts.gets "__REACT_DEVTOOLS_GLOBAL_HOOK__" = true ∧
    (detect_tech_stack devtoolsOnlyFacts).frameworks =
      [{ name := "React", version := none, confidence := "medium",
         category := "js_framework", indicators := ["React patterns detected"] }] ∧
    ("medium" : String) ≠ "high" := by
  refine ⟨by decide, by decide, by decide⟩

/-- C3 (amended): when React is detected, its recorded `FrameworkInfo` has
confidence `"high"` exactly when the `React` global itself was seen and
`"medium"` otherwise; a detected meta-framework such as Next.js is always
recorded with confidence `"high"`. -/
theorem react_confidence_rule (d : DetectionData) :
    (reactDetected d = true →
      ∃ f ∈ (detect_tech_stack d).frameworks,
        f.name = "React" ∧
        f.confidence = (if d.gets "React" then "high" else "medium")) ∧
    (nextDetected d = true →
      ∃ f ∈ (detect_tech_stack d).frameworks,
        f.name = "Next.js" ∧ f.confidence = "high") := by
  constructor
  · intro h
    refine ⟨reactInfo d, ?_, rfl, rfl⟩
    show reactInfo d ∈ frameworksOf d
    unfold frameworksOf optCons
    rw [h]
    simp
  · intro h
    refine ⟨nextInfo, ?_, rfl, rfl⟩
    show nextInfo ∈ frameworksOf d
    unfold frameworksOf optCons
    rw [h]
    by_cases h1 : reactDetected d <;>
      by_cases h2 : vueDetected d <;>
        by_cases h3 : angularDetected d <;>
          by_cases h4 : svelteDetected d <;>
            simp [h1, h2, h3, h4]

/-- Page facts with only the `React` global set. -/
def reactGlobalFacts : DetectionData :=
  { scripts := [], stylesheets := [], globals := ["React"],
    attributes := [], classNames := [], dataAttributes := [],
    inlineStylesCount := 0, cssVariables := [], htmlHints := [] }

/-- Witness for the amended C3 at concrete inputs. -/
theorem react_confidence_rule_witness :
    reactDetected reactGlobalFacts = true ∧
    (∃ f ∈ (detect_tech_stack reactGlobalFacts).frameworks,
      f.name = "React" ∧
      f.confidence = (if reactGlobalFacts.gets "React" then "high" else "medium")) :=
  ⟨by decide, (react_confidence_rule reactGlobalFacts).1 (by decide)⟩

end UIAnalyzer
